import Mathlib

/-!
Verification of the restaurant data-analysis pipeline: a shallow embedding of
the column-mapping inference, data-type classification, metrics, trend
classification and recommendation rules of `restaurant_data_foundation.py` and
`restaurant_ai_analyzer.py`, with theorems about the embedded definitions.

Numeric values are embedded as exact rationals (the Python code computes with
floats; every concrete value exercised here is exactly representable).  A
pandas cell is `Cell`: a string, a number, or null (NaN).  A DataFrame is a
list of named columns.  Functions that can raise are given a `Result` type
distinguishing a normal payload, an error-keyed dict, a skipped-keyed dict and
an uncaught exception.
-/

namespace DataTool

/-! ## String utilities (Python str.lower / str.strip / substring test) -/

/-- Python `str.lower` restricted to ASCII, as used on column names. -/
def lowerStr (s : String) : String := String.mk (s.toList.map Char.toLower)

/-- Python `str.strip`: drop leading and trailing whitespace. -/
def stripStr (s : String) : String :=
  String.mk (((s.toList.dropWhile Char.isWhitespace).reverse.dropWhile
    Char.isWhitespace).reverse)

/-- Does the pattern occur at the head of the haystack? -/
def matchAt : List Char → List Char → Bool
  | [], _ => true
  | _ :: _, [] => false
  | a :: as, b :: bs => a == b && matchAt as bs

/-- Does the pattern occur as a contiguous run of the haystack? -/
def hasSub (pat : List Char) : List Char → Bool
  | [] => pat.isEmpty
  | b :: bs => matchAt pat (b :: bs) || hasSub pat bs

/-- Python substring test: `strContains hay pat` models `pat in hay`. -/
def strContains (hay pat : String) : Bool := hasSub pat.toList hay.toList

/-- Python `str.title` (ASCII): uppercase a letter that follows a non-letter,
lowercase a letter that follows a letter. The Boolean carries whether the
previous character was a letter. -/
def titleChars : Bool → List Char → List Char
  | _, [] => []
  | prev, c :: cs =>
    if c.isAlpha then
      (if prev then c.toLower else c.toUpper) :: titleChars true cs
    else c :: titleChars false cs

/-- `DataCleaner.clean_text_column` applied to one value: strip then title. -/
def cleanText (s : String) : String := String.mk (titleChars false (stripStr s).toList)

/-! ## Numeric parsing (`pd.to_numeric` with `errors='coerce'`, decimal strings) -/

/-- The numeric value of a digit list, most significant first. -/
def digitsVal (l : List Char) : Nat := l.foldl (fun a c => 10 * a + (c.toNat - 48)) 0

/-- Parse an unsigned decimal: digits, optionally a point and more digits;
at least one digit in total. -/
def parseUnsignedQ (l : List Char) : Option ℚ :=
  let intPart := l.takeWhile Char.isDigit
  let rest := l.dropWhile Char.isDigit
  match rest with
  | [] => if intPart.isEmpty then none else some (digitsVal intPart : ℚ)
  | '.' :: frac =>
    if frac.all Char.isDigit && !(intPart.isEmpty && frac.isEmpty) then
      some ((digitsVal intPart : ℚ) + (digitsVal frac : ℚ) / (10 : ℚ) ^ frac.length)
    else none
  | _ => none

/-- `pd.to_numeric(·, errors='coerce')` on one string cell: an optional sign
then an unsigned decimal, with surrounding whitespace tolerated; anything else
coerces to NaN (`none`). -/
def toNumeric (s : String) : Option ℚ :=
  match (stripStr s).toList with
  | '-' :: rest => (parseUnsignedQ rest).map Neg.neg
  | '+' :: rest => parseUnsignedQ rest
  | l => parseUnsignedQ l

/-- `DataCleaner.clean_currency_column` applied to one string cell of an
object-dtype column: the regex `[\$,]` removes dollar signs and commas, then
`pd.to_numeric(errors='coerce')` parses, yielding NaN (`none`) on failure. -/
def cleanCurrencyStr (s : String) : Option ℚ :=
  toNumeric (String.mk (s.toList.filter (fun c => !(c == '$') && !(c == ','))))

/-! ## Cells and frames -/

/-- One cell of a DataFrame: null (NaN), a string, or a number. -/
inductive Cell where
  | null : Cell
  | str : String → Cell
  | num : ℚ → Cell
deriving DecidableEq

/-- A DataFrame, as the list of its named columns. All of this repository's
claims constrain either the column names or a single column's cells, so a
column-wise view is the faithful minimal model; `nrows` reads the row count
off the first column (frames are rectangular). -/
abbrev Frame : Type := List (String × List Cell)

/-- `len(df)`: the row count of a (rectangular) frame. -/
def nrows (df : Frame) : Nat :=
  match df with
  | [] => 0
  | c :: _ => c.2.length

/-- The named column's cells, if the column exists (`df[name]`; a missing
name raises KeyError, which callers of this model surface as `Result.raised`). -/
def lookupCol (df : Frame) (name : String) : Option (List Cell) :=
  (List.lookup name df)

/-- A column's pandas dtype is `object` exactly when it holds a string. -/
def isObjectCol (col : List Cell) : Bool :=
  col.any (fun c => match c with | .str _ => true | _ => false)

/-- `DataCleaner.clean_currency_column` on a whole column. On an object-dtype
column the `.str` accessor turns every non-string element into NaN before
parsing; on a numeric column the series is returned unchanged (nulls stay NaN). -/
def clean_currency_column (col : List Cell) : List (Option ℚ) :=
  if isObjectCol col then
    col.map (fun c => match c with | .str s => cleanCurrencyStr s | _ => none)
  else
    col.map (fun c => match c with | .num q => some q | _ => none)

/-! ## ColumnMapper (`restaurant_data_foundation.py` lines 131-177) -/

/-- The `price` row of `ColumnMapper.DETECTION_PATTERNS`. -/
def priceKeywords : List String :=
  ["price", "amount", "total", "cost", "revenue", "value", "sales", "gross"]

/-- `ColumnMapper.DETECTION_PATTERNS`, in source order. -/
def DETECTION_PATTERNS : List (String × List String) :=
  [("date", ["date", "time", "created", "order_date", "timestamp", "datetime", "closed"]),
   ("item_name", ["item", "product", "menu", "name", "description", "dish", "food"]),
   ("price", priceKeywords),
   ("quantity", ["qty", "quantity", "count", "units", "sold", "ordered"]),
   ("category", ["category", "type", "group", "section", "class", "department"]),
   ("payment_method", ["payment", "method", "card", "cash", "tender"]),
   ("employee", ["employee", "staff", "server", "cashier", "user", "waiter"]),
   ("order_id", ["order", "ticket", "transaction", "id", "receipt", "check"]),
   ("customer_id", ["customer", "guest", "phone", "email", "client"]),
   ("tax", ["tax", "gst", "vat", "sales_tax"]),
   ("discount", ["discount", "promo", "coupon", "comp"]),
   ("tip", ["tip", "gratuity", "service"]),
   ("cost", ["cost", "cogs", "ingredient_cost"])]

/-- The inner detection loop for one canonical field: scan the normalized
column names left to right for the first one containing any keyword, then
recover the original columns through `columns_lower.get_loc(col_lower)`.
`get_loc` yields an integer position when the normalized names are unique
(so `df.columns[...]` is the single original name) and a slice or boolean
mask when the matched normalized name is duplicated (so `df.columns[...]`
is a pandas Index of several names).  The value is therefore modeled as the
list of original columns whose normalized name equals the matched one: a
singleton stands for the scalar case, a longer list for the Index case. -/
def autoDetectField (norm : String → String) (keywords : List String)
    (cols : List String) : Option (List String) :=
  ((cols.map norm).find? (fun cl => keywords.any (fun k => strContains cl k))).map
    (fun cl => cols.filter (fun c => norm c == cl))

/-- The foundation's column-name normalization:
`df.columns.str.lower().str.strip()`. -/
def normFoundation (s : String) : String := stripStr (lowerStr s)

/-- `ColumnMapper.auto_detect_columns`, as the association list from each
canonical field to its detected value (`none` = field left unmapped). -/
def auto_detect_columns (cols : List String) : List (String × Option (List String)) :=
  DETECTION_PATTERNS.map (fun p => (p.1, autoDetectField normFoundation p.2 cols))

/-- The `price` entry of the patterns dict of
`RestaurantDataAI._auto_detect_columns`. -/
def aiPriceKeywords : List String :=
  ["price", "amount", "total", "cost", "revenue", "sales", "value"]

/-- The patterns dict of `RestaurantDataAI._auto_detect_columns`
(`restaurant_ai_analyzer.py` lines 91-101), in source order. -/
def AI_PATTERNS : List (String × List String) :=
  [("date", ["date", "time", "created", "order_date", "timestamp", "day", "week", "month"]),
   ("item_name", ["item", "product", "menu", "name", "description", "dish"]),
   ("price", aiPriceKeywords),
   ("quantity", ["qty", "quantity", "count", "units", "orders", "sold"]),
   ("category", ["category", "type", "group", "section", "department"]),
   ("payment", ["payment", "method", "card", "cash", "tender"]),
   ("employee", ["employee", "staff", "server", "cashier", "waiter"]),
   ("order_id", ["order", "ticket", "transaction", "receipt", "id"]),
   ("customer", ["customer", "guest", "phone", "email", "patron"])]

/-- `RestaurantDataAI._auto_detect_columns`: same loop as the foundation's
mapper but normalizing with `str.lower()` only (no strip), writing into a
dict, so unmatched fields are simply absent. -/
def ai_auto_detect_columns (cols : List String) : List (String × List String) :=
  AI_PATTERNS.filterMap
    (fun p => (autoDetectField lowerStr p.2 cols).map (fun v => (p.1, v)))

/-! ## Data-type classifier (`RestaurantDataAI._determine_data_type`) -/

/-- The summary-data indicator keywords. -/
def summaryIndicators : List String :=
  ["total", "sum", "average", "count", "daily", "weekly", "monthly"]

/-- The transaction-data indicator keywords. -/
def transactionIndicators : List String :=
  ["order_id", "transaction_id", "timestamp", "receipt"]

/-- The number of lowercased column names containing at least one of the
given indicator keywords. -/
def indicatorScore (indicators : List String) (cols : List String) : Nat :=
  ((cols.map lowerStr).filter
    (fun c => indicators.any (fun k => strContains c k))).length

/-- `RestaurantDataAI._determine_data_type`: score the column names against
both indicator sets; the strictly greater score names the label, equal
scores give "mixed". -/
def determine_data_type (cols : List String) : String :=
  let summaryScore := indicatorScore summaryIndicators cols
  let transactionScore := indicatorScore transactionIndicators cols
  if summaryScore > transactionScore then "summary"
  else if transactionScore > summaryScore then "transaction"
  else "mixed"

/-! ## Trend classifier (`RestaurantDataAI._calculate_trend`) -/

/-- The mean of a list of rationals (0 on the empty list, which the callers
below never pass). -/
def listMean (l : List ℚ) : ℚ := l.sum / l.length

/-- `RestaurantDataAI._calculate_trend`: split at `len // 2`, compare the two
halves' means by percent change (0 when the first-half mean is 0), classify
against the fixed ±5 thresholds; fewer than 2 points is insufficient data. -/
def calculate_trend (s : List ℚ) : String :=
  if s.length < 2 then "insufficient_data"
  else
    let firstHalf := listMean (s.take (s.length / 2))
    let secondHalf := listMean (s.drop (s.length / 2))
    let changePercent := if firstHalf ≠ 0 then (secondHalf - firstHalf) / firstHalf * 100 else 0
    if changePercent > 5 then "increasing"
    else if changePercent < -5 then "decreasing"
    else "stable"

/-! ## Results

A value of `Result α` is what a Python analysis method hands back: a normal
payload, a dict carrying an "error" key, a dict carrying a "skipped" key, or
an uncaught exception escaping the call.
-/

inductive Result (α : Type) where
  | ok : α → Result α
  | err : String → Result α
  | skipped : String → Result α
  | raised : String → Result α
deriving DecidableEq

/-- Is this result the skipped-keyed dict the AI analyzer returns when an
analysis does not apply? -/
def Result.isSkipped {α : Type} : Result α → Bool
  | .skipped _ => true
  | _ => false

/-- Is this a normal (successful) payload? -/
def Result.isOk {α : Type} : Result α → Bool
  | .ok _ => true
  | _ => false

/-! ## The ColumnMapping dataclass -/

/-- The `ColumnMapping` dataclass: every canonical field optionally holds a
column name.  `none` models Python `None`; Python truthiness also treats an
empty string as unset, which the guards below reproduce. -/
structure Mapping where
  date : Option String := none
  item_name : Option String := none
  price : Option String := none
  quantity : Option String := none
  category : Option String := none
  order_id : Option String := none
  employee : Option String := none
  payment_method : Option String := none
  customer_id : Option String := none
  tax : Option String := none
  discount : Option String := none
  tip : Option String := none
  cost : Option String := none
deriving DecidableEq

/-- Python falsiness of an `Optional[str]` field: `None` or the empty string. -/
def falsy (o : Option String) : Bool :=
  match o with
  | none => true
  | some s => s == ""

/-! ## Sorting and order statistics over rationals -/

/-- Insert into a sorted list (ascending). -/
def insertQ (x : ℚ) : List ℚ → List ℚ
  | [] => [x]
  | y :: ys => if x ≤ y then x :: y :: ys else y :: insertQ x ys

/-- Insertion sort, ascending. -/
def sortQ (l : List ℚ) : List ℚ := l.foldr insertQ []

/-- The pandas median: middle element of the sorted values for odd length,
mean of the two middle elements for even length, NaN (`none`) when empty. -/
def medianQ (l : List ℚ) : Option ℚ :=
  let s := sortQ l
  match s with
  | [] => none
  | _ :: _ =>
    if s.length % 2 = 1 then s.get? (s.length / 2)
    else do
      let a ← s.get? (s.length / 2 - 1)
      let b ← s.get? (s.length / 2)
      pure ((a + b) / 2)

/-- Maximum of a list, NaN (`none`) when empty. -/
def maxQ (l : List ℚ) : Option ℚ :=
  match l with
  | [] => none
  | x :: xs => some (xs.foldl max x)

/-- Minimum of a list, NaN (`none`) when empty. -/
def minQ (l : List ℚ) : Option ℚ :=
  match l with
  | [] => none
  | x :: xs => some (xs.foldl min x)

/-- Mean of a list, NaN (`none`) when empty, as pandas `Series.mean`
skipping nothing (callers pass already-filtered values). -/
def meanQ (l : List ℚ) : Option ℚ :=
  match l with
  | [] => none
  | _ :: _ => some (l.sum / l.length)

/-- The sample variance with one delta degree of freedom, the square of
pandas `Series.std()`; `none` models the NaN that `std` yields on fewer than
two values.  The standard deviation itself is the square root of this, which
is irrational in general, so the embedding carries the square and every
comparison against `std` below is phrased square-free. -/
def sampleVarQ (l : List ℚ) : Option ℚ :=
  if l.length ≥ 2 then
    some (((l.map (fun x => (x - listMean l) ^ 2)).sum) / (l.length - 1 : ℕ))
  else none

/-! ## SalesAnalyzer.calculate_basic_metrics -/

/-- The dict `calculate_basic_metrics` returns.  `std_transaction_sq` is the
square of the reported `std_transaction` (see `sampleVarQ`). -/
structure BasicMetrics where
  total_revenue : ℚ
  transaction_count : Nat
  average_transaction : Option ℚ
  median_transaction : Option ℚ
  max_transaction : Option ℚ
  min_transaction : Option ℚ
  std_transaction_sq : Option ℚ
deriving DecidableEq

/-- `SalesAnalyzer.calculate_basic_metrics`: requires a truthy price mapping
(else the error-keyed dict), cleans the price column with
`clean_currency_column`, and aggregates with pandas NaN-skipping semantics;
`transaction_count` is `len(df)`.  A mapped price column absent from the
frame raises KeyError. -/
def calculate_basic_metrics (df : Frame) (m : Mapping) : Result BasicMetrics :=
  match m.price with
  | none => .err "Price column required"
  | some pc =>
    if pc == "" then .err "Price column required"
    else
      match lookupCol df pc with
      | none => .raised "KeyError"
      | some col =>
        let vals := (clean_currency_column col).reduceOption
        .ok { total_revenue := vals.sum
              transaction_count := nrows df
              average_transaction := meanQ vals
              median_transaction := medianQ vals
              max_transaction := maxQ vals
              min_transaction := minQ vals
              std_transaction_sq := sampleVarQ vals }

/-! ## Generic grouping (pandas groupby: keys deduplicated and sorted) -/

/-- Insert under a Boolean order: the element goes before the first list
element `y` with `le x y`. Folding from the right gives a stable sort. -/
def insertLe {κ : Type} (le : κ → κ → Bool) (x : κ) : List κ → List κ
  | [] => [x]
  | y :: ys => if le x y then x :: y :: ys else y :: insertLe le x ys

/-- Stable insertion sort under a Boolean order. -/
def sortLe {κ : Type} (le : κ → κ → Bool) (l : List κ) : List κ :=
  l.foldr (insertLe le) []

/-- Keep the first occurrence of every element, preserving order (the order
pandas `value_counts` lists its groups in before sorting). -/
def firstDedup {κ : Type} [DecidableEq κ] : List κ → List κ
  | [] => []
  | a :: t => a :: firstDedup (t.filter (fun b => !(b == a)))
termination_by l => l.length
decreasing_by
  simp only [List.length_cons]
  exact Nat.lt_succ_of_le (List.length_filter_le _ _)

/-- Python `round(x, 2)` idealized over exact rationals (the float version
rounds half to even in binary; nothing proved here depends on half-way
cases). -/
def round2 (q : ℚ) : ℚ := ((round (100 * q) : ℤ) : ℚ) / 100

/-- Python `round(x, 1)`, same idealization as `round2`. -/
def round1 (q : ℚ) : ℚ := ((round (10 * q) : ℤ) : ℚ) / 10

/-- One group's `agg(['sum', 'count', 'mean']).round(2)` row; `mean` is NaN
(`none`) for a group with no non-null values. -/
structure Agg3 where
  sum : ℚ
  count : Nat
  mean : Option ℚ
deriving DecidableEq

/-- `groupby(key)[value].agg(['sum', 'count', 'mean']).round(2)` over
key-value pairs: group keys deduplicated and listed in sorted order as pandas
does. -/
def groupAgg {κ : Type} [DecidableEq κ] (le : κ → κ → Bool)
    (pairs : List (κ × ℚ)) : List (κ × Agg3) :=
  (sortLe le (pairs.map Prod.fst).dedup).map (fun k =>
    let vs := pairs.filterMap (fun p => if p.1 = k then some p.2 else none)
    (k, ⟨round2 vs.sum, vs.length, (meanQ vs).map round2⟩))

/-- `groupby(key)[value].sum()` with NaN values skipped, keys sorted. -/
def groupSum {κ : Type} [DecidableEq κ] (le : κ → κ → Bool)
    (pairs : List (κ × Option ℚ)) : List (κ × ℚ) :=
  (sortLe le (pairs.map Prod.fst).dedup).map (fun k =>
    (k, (pairs.filterMap (fun p => if p.1 = k then p.2 else none)).sum))

/-- Boolean orders for the key types grouped below. -/
def natLe (a b : Nat) : Bool := decide (a ≤ b)

def intLe (a b : ℤ) : Bool := decide (a ≤ b)

def strLe (a b : String) : Bool := !(decide (b < a))

/-! ## SalesAnalyzer.analyze_temporal_patterns -/

/-- What `pd.to_datetime` exposes of one parsed timestamp: the hour of day,
the day-of-week name, and the calendar date as a proleptic ordinal (so date
subtraction is integer subtraction in days). -/
structure Timestamp where
  hour : Nat
  dayName : String
  dateOrd : ℤ
deriving DecidableEq

/-- The dict `analyze_temporal_patterns` returns (the unused `month` period
column of the source is not carried; no output reads it). -/
structure TemporalResult where
  start_ord : ℤ
  end_ord : ℤ
  total_days : ℤ
  hourly_sales : List (Nat × Agg3)
  daily_sales : List (String × Agg3)
  daily_totals : List (ℤ × ℚ)
deriving DecidableEq

/-- `SalesAnalyzer.analyze_temporal_patterns`. `toDT` is the external
`pd.to_datetime(errors='coerce')` collaborator on one cell (`none` = NaT).
Rows where either the date or the cleaned price is NaN are dropped; on a
frame where every row is dropped the `max() - min()` date arithmetic hits
NaN and the method raises. -/
def analyze_temporal_patterns (toDT : Cell → Option Timestamp)
    (df : Frame) (m : Mapping) : Result TemporalResult :=
  if falsy m.date || falsy m.price then .err "Date and price columns required"
  else
    match lookupCol df ((m.date).getD ""), lookupCol df ((m.price).getD "") with
    | some dcol, some pcol =>
      let valid := ((dcol.map toDT).zip (clean_currency_column pcol)).filterMap
        (fun p => match p.1, p.2 with
          | some t, some q => some (t, q)
          | _, _ => none)
      match valid with
      | [] => .raised "TypeError: date range arithmetic on empty data"
      | v :: vs =>
        let ords := (v :: vs).map (fun p => p.1.dateOrd)
        .ok { start_ord := ords.foldl min v.1.dateOrd
              end_ord := ords.foldl max v.1.dateOrd
              total_days := ords.foldl max v.1.dateOrd - ords.foldl min v.1.dateOrd
              hourly_sales := groupAgg natLe ((v :: vs).map (fun p => (p.1.hour, p.2)))
              daily_sales := groupAgg strLe ((v :: vs).map (fun p => (p.1.dayName, p.2)))
              daily_totals :=
                (groupSum intLe ((v :: vs).map (fun p => (p.1.dateOrd, some p.2)))).map
                  (fun g => (g.1, round2 g.2)) }
    | _, _ => .raised "KeyError"

/-! ## SalesAnalyzer.analyze_item_performance -/

/-- Is the cell a string? -/
def isStrCell (c : Cell) : Bool :=
  match c with
  | .str _ => true
  | _ => false

/-- The number of a cell, if it is one. -/
def cellNum (c : Cell) : Option ℚ :=
  match c with
  | .num q => some q
  | _ => none

/-- `clean_text_column` over a column: the `.str` accessor demands an
object-dtype (string-holding) column — on a purely numeric one it raises
AttributeError — and maps every non-string element to NaN. -/
def clean_text_column (col : List Cell) : Option (List (Option String)) :=
  if col.isEmpty || isObjectCol col then
    some (col.map (fun c => match c with | .str s => some (cleanText s) | _ => none))
  else none

/-- `value_counts()` of a column of cleaned names: occurrence counts per
distinct value, NaN excluded, in first-occurrence order (sorted by the
callers that need an order). -/
def valueCounts (items : List String) : List (String × Nat) :=
  (firstDedup items).map (fun k => (k, items.count k))

/-- The dict `analyze_item_performance` returns; the two ranking tables are
present only when a price column is mapped. -/
structure ItemPerf where
  total_unique_items : Nat
  most_ordered_items : List (String × Nat)
  ordered_once : Nat
  ordered_2_5_times : Nat
  ordered_more_than_5 : Nat
  top_revenue_items : Option (List (String × Agg3))
  highest_avg_price_items : Option (List (String × Agg3))
deriving DecidableEq

/-- Per-item `groupby(clean_item)['clean_price'].agg(['sum','mean','count'])`
with keys sorted, NaN prices skipped inside each group. -/
def itemRevenueTable (rows : List (Option String × Option ℚ)) : List (String × Agg3) :=
  (sortLe strLe (rows.filterMap Prod.fst).dedup).map (fun k =>
    let vs := rows.filterMap (fun p => if p.1 = some k then p.2 else none)
    (k, ⟨round2 vs.sum, vs.length, (meanQ vs).map round2⟩))

/-- `nlargest(10, field)`: stable descending sort on the chosen rational
field, NaN keys dropped (as pandas `nlargest` drops them), first ten rows. -/
def nlargest10 (field : Agg3 → Option ℚ) (t : List (String × Agg3)) :
    List (String × Agg3) :=
  (sortLe (fun a b => decide ((field b.2).getD 0 ≤ (field a.2).getD 0))
    (t.filter (fun r => (field r.2).isSome))).take 10

/-- `SalesAnalyzer.analyze_item_performance`: requires a truthy item-name
mapping, cleans the item names (strip + title), counts and, when a price
column is mapped, ranks per-item revenue. -/
def analyze_item_performance (df : Frame) (m : Mapping) : Result ItemPerf :=
  if falsy m.item_name then .err "Item name column required"
  else
    match lookupCol df ((m.item_name).getD "") with
    | none => .raised "KeyError"
    | some icol =>
      match clean_text_column icol with
      | none => .raised "AttributeError: str accessor on non-object column"
      | some cleaned =>
        let items := cleaned.reduceOption
        let counts := valueCounts items
        let base : ItemPerf :=
          { total_unique_items := counts.length
            most_ordered_items :=
              (sortLe (fun a b => decide (b.2 ≤ a.2)) counts).take 10
            ordered_once := counts.countP (fun p => p.2 == 1)
            ordered_2_5_times := counts.countP (fun p => 2 ≤ p.2 && p.2 ≤ 5)
            ordered_more_than_5 := counts.countP (fun p => 5 < p.2)
            top_revenue_items := none
            highest_avg_price_items := none }
        if falsy m.price then .ok base
        else
          match lookupCol df ((m.price).getD "") with
          | none => .raised "KeyError"
          | some pcol =>
            let table := itemRevenueTable (cleaned.zip (clean_currency_column pcol))
            .ok { base with
                  top_revenue_items := some (nlargest10 (fun a => some a.sum) table)
                  highest_avg_price_items := some (nlargest10 (fun a => a.mean) table) }

/-! ## OrderAnalyzer.analyze_order_composition -/

/-- Boolean order on cells for sorted group keys (group keys are homogeneous
in practice; numbers sort before strings, nulls never key a group). -/
def cellLe (a b : Cell) : Bool :=
  match a, b with
  | .null, _ => true
  | _, .null => false
  | .num x, .num y => decide (x ≤ y)
  | .num _, .str _ => true
  | .str _, .num _ => false
  | .str x, .str y => !(decide (y < x))

/-- The dict `analyze_order_composition` returns; the order-value fields are
present only when a price column is mapped. -/
structure OrderComp where
  total_orders : Nat
  average_items_per_order : ℚ
  median_items_per_order : ℚ
  max_items_in_order : Nat
  single_item_orders : Nat
  average_order_value : Option ℚ
  median_order_value : Option ℚ
  largest_order_value : Option ℚ
deriving DecidableEq

/-- `OrderAnalyzer.analyze_order_composition`: requires a truthy order-id
mapping; groups rows by order id (null ids dropped, keys sorted).  With a
price mapping the item count per order is the count of non-null price cells
and the order value their sum — aggregating the raw price column, so a
string-holding price column raises when the aggregated values reach
`float(...mean())`; with no price mapping the item-name column is counted,
and when that is unmapped too the source builds `{None: 'count'}` and the
groupby raises KeyError.  An empty group list raises at
`int(order_stats.max())`. -/
def analyze_order_composition (df : Frame) (m : Mapping) : Result OrderComp :=
  if falsy m.order_id then .err "Order ID column required"
  else
    match lookupCol df ((m.order_id).getD "") with
    | none => .raised "KeyError"
    | some ocol =>
      let keys := sortLe cellLe (ocol.filter (fun c => !(c == Cell.null))).dedup
      let aggCol : Result (List Cell × Bool) :=
        if !(falsy m.price) then
          match lookupCol df ((m.price).getD "") with
          | none => .raised "KeyError"
          | some pcol =>
            if isObjectCol pcol then .raised "TypeError: object aggregation"
            else .ok (pcol, true)
        else
          match m.item_name with
          | none => .raised "KeyError: None is not a column"
          | some ic =>
            match lookupCol df ic with
            | none => .raised "KeyError"
            | some icol => .ok (icol, false)
      match aggCol with
      | .ok (acol, withPrice) =>
        match keys with
        | [] => .raised "ValueError: empty order statistics"
        | _ :: _ =>
          let rows := ocol.zip acol
          let groupCells : Cell → List Cell := fun k =>
            rows.filterMap (fun p => if p.1 = k then some p.2 else none)
          let itemCounts := keys.map
            (fun k => ((groupCells k).filter (fun c => !(c == Cell.null))).length)
          let countsQ := itemCounts.map (fun n => (n : ℚ))
          let orderSums := keys.map (fun k => ((groupCells k).filterMap cellNum).sum)
          .ok { total_orders := keys.length
                average_items_per_order := listMean countsQ
                median_items_per_order := (medianQ countsQ).getD 0
                max_items_in_order := itemCounts.foldl max 0
                single_item_orders := itemCounts.countP (fun n => n == 1)
                average_order_value := if withPrice then meanQ orderSums else none
                median_order_value := if withPrice then medianQ orderSums else none
                largest_order_value := if withPrice then maxQ orderSums else none }
      | .err e => .err e
      | .skipped s => .skipped s
      | .raised e => .raised e

/-! ## RestaurantDataAI.analyze_summary_data -/

/-- The numeric columns of the loaded frame (what
`select_dtypes(include=[np.number])` yields): each column's name with its
cells, `none` for NaN. -/
abbrev NumFrame : Type := List (String × List (Option ℚ))

/-- One column's entry in the `analyze_summary_data` result dict.  `stdSq`
carries the square of the reported `std` (see `sampleVarQ`); the source puts
a literal 0 where fewer than two values remain. -/
structure ColStats where
  total : ℚ
  average : ℚ
  maxVal : ℚ
  minVal : ℚ
  stdSq : ℚ
  trend : String
deriving DecidableEq

/-- The stats of one numeric column's non-null values (callers only apply
this to a nonempty list; the `headD 0` seeds are then never the answer). -/
def mkColStats (d : List ℚ) : ColStats :=
  { total := d.sum
    average := listMean d
    maxVal := d.foldl max (d.headD 0)
    minVal := d.foldl min (d.headD 0)
    stdSq := (sampleVarQ d).getD 0
    trend := calculate_trend d }

/-- The per-column loop of `analyze_summary_data`: drop NaNs, skip columns
with nothing left, keep column order. -/
def summaryStats (nf : NumFrame) : List (String × ColStats) :=
  nf.filterMap (fun p =>
    let d := p.2.reduceOption
    if d.isEmpty then none else some (p.1, mkColStats d))

/-- `RestaurantDataAI.analyze_summary_data`: the error-keyed dict when there
is no numeric column, else the per-column stats. -/
def analyze_summary_data (nf : NumFrame) : Result (List (String × ColStats)) :=
  if nf.isEmpty then .err "No numeric columns found for analysis"
  else .ok (summaryStats nf)

/-! ## RestaurantDataAI.analyze_business_opportunities -/

/-- Does the lowercased metric name contain "sales" or "revenue"? -/
def isRevName (n : String) : Bool :=
  strContains (lowerStr n) "sales" || strContains (lowerStr n) "revenue"

/-- Does the lowercased metric name contain "guest" or "customer"? -/
def isCustName (n : String) : Bool :=
  strContains (lowerStr n) "guest" || strContains (lowerStr n) "customer"

/-- One business opportunity (the `issue` f-string is presentation and not
carried). -/
structure Opportunity where
  type : String
  priority : String
  impact : ℚ
  recommendation : String
deriving DecidableEq

/-- The source comparison `stats['std'] < stats['average'] * 0.1`, phrased on
the squared deviation: `sqrt v < c ↔ 0 < c ∧ v < c ^ 2` for `v ≥ 0`. -/
def lowVariation (st : ColStats) : Bool :=
  decide (0 < st.average * (1 / 10)) && decide (st.stdSq < (st.average * (1 / 10)) ^ 2)

/-- The first loop of `analyze_business_opportunities`: revenue metrics. -/
def revenueOpportunities (sl : List (String × ColStats)) : List Opportunity :=
  sl.filterMap (fun p =>
    if isRevName p.1 then
      if p.2.trend == "decreasing" then
        some { type := "revenue_recovery", priority := "HIGH", impact := p.2.total
               recommendation := "Implement immediate revenue recovery strategies" }
      else if p.2.trend == "stable" && lowVariation p.2 then
        some { type := "growth_potential", priority := "MEDIUM"
               impact := p.2.total * (15 / 100)
               recommendation := "Focus on growth initiatives" }
      else none
    else none)

/-- The second loop of `analyze_business_opportunities`: customer metrics
averaging under the fixed 200/day threshold. -/
def customerOpportunities (sl : List (String × ColStats)) : List Opportunity :=
  sl.filterMap (fun p =>
    if isCustName p.1 then
      if p.2.average < 200 then
        some { type := "customer_acquisition", priority := "HIGH"
               impact := (250 - p.2.average) * 7 * 4
               recommendation := "Launch customer acquisition campaigns" }
      else none
    else none)

/-- `RestaurantDataAI.analyze_business_opportunities`: both loops run only
under the source's in-band test `if 'error' not in summary_data:` — the
summary result is a dict keyed by column names, so the key "error" is
present both when `analyze_summary_data` returned its error dict and when a
numeric column is literally named "error"; in either case both loops are
skipped.  Nothing in the body can raise, so the surrounding try/except never
fires. -/
def analyze_business_opportunities (nf : NumFrame) : List Opportunity :=
  match analyze_summary_data nf with
  | .ok sl =>
    if sl.any (fun p => p.1 == "error") then []
    else revenueOpportunities sl ++ customerOpportunities sl
  | _ => []

/-! ## RestaurantDataAI.calculate_revenue_impact and the strategic baseline -/

/-- The baseline loop of `calculate_revenue_impact`: each sales/revenue
column overwrites `total_revenue`, each guest/customer column overwrites
`total_customers`. -/
def baselineTotals (sl : List (String × ColStats)) : ℚ × ℚ :=
  sl.foldl (fun acc p =>
    if isRevName p.1 then (p.2.total, acc.2)
    else if isCustName p.1 then (acc.1, p.2.total)
    else acc) (0, 0)

/-- The `total_revenue` baseline `calculate_revenue_impact` projects from. -/
def revenueImpactBaseline (sl : List (String × ColStats)) : ℚ :=
  (baselineTotals sl).1

/-- One fixed-percentage scenario of the projection. -/
structure Scenario where
  monthly_impact : ℚ
  annual_impact : ℚ
deriving DecidableEq

/-- The four scenarios of `calculate_revenue_impact`. -/
structure ImpactAnalysis where
  customer_acquisition_25 : Scenario
  average_ticket_15 : Scenario
  operational_efficiency_10 : Scenario
  combined_impact : Scenario
deriving DecidableEq

/-- `RestaurantDataAI.calculate_revenue_impact`: `none` models the empty
dict it returns when the baseline is not positive or the in-band test
`if 'error' not in summary_data:` fails — as in
`analyze_business_opportunities`, the key "error" is present both when the
summary analysis errored and when a numeric column is literally named
"error". -/
def calculate_revenue_impact (nf : NumFrame) : Option ImpactAnalysis :=
  match analyze_summary_data nf with
  | .ok sl =>
    if sl.any (fun p => p.1 == "error") then none
    else
    let tr := revenueImpactBaseline sl
    if tr > 0 then
      some { customer_acquisition_25 := ⟨tr * (25 / 100), tr * (25 / 100) * 12⟩
             average_ticket_15 := ⟨tr * (15 / 100), tr * (15 / 100) * 12⟩
             operational_efficiency_10 := ⟨tr * (10 / 100), tr * (10 / 100) * 12⟩
             combined_impact := ⟨tr * (50 / 100), tr * (50 / 100) * 12⟩ }
    else none
  | _ => none

/-- The `total_revenue` baseline of the revenue-optimization section of
`generate_strategic_recommendations` (restaurant_ai_analyzer.py lines
315-316): the sum over every sales/revenue column's total. -/
def strategic_total_revenue (sl : List (String × ColStats)) : ℚ :=
  ((sl.filter (fun p => isRevName p.1)).map (fun p => p.2.total)).sum

/-! ## RestaurantDataAI.analyze_sales_trends -/

/-- The dict `analyze_sales_trends` returns on success. -/
structure SalesTrends where
  daily_average : ℚ
  peak_hour : Nat
  peak_hour_sales : ℚ
  best_day : String
  best_day_average : ℚ
  total_revenue : ℚ
  start_ord : ℤ
  end_ord : ℤ
deriving DecidableEq

/-- `Series.idxmax` over a key-sorted sum series: the first key attaining
the maximum. -/
def idxmaxBy {κ : Type} (l : List (κ × ℚ)) (h : κ × ℚ) : κ × ℚ :=
  l.foldl (fun best p => if p.2 > best.2 then p else best) h

/-- `RestaurantDataAI.analyze_sales_trends`: state passed explicitly — the
detected `data_type`, the `column_mapping` dict, the external
`pd.to_datetime` collaborator, and the loaded frame.  Summary data and a
mapping missing `date` or `price` give the two skipped-keyed dicts; the body
runs inside try/except, so a missing column, an empty series at `idxmax`, or
string cells reaching the aggregation arithmetic all become the error-keyed
dict. -/
def analyze_sales_trends (dataType : String) (cm : List (String × String))
    (toDT : Cell → Option Timestamp) (df : Frame) : Result SalesTrends :=
  if dataType == "summary" then
    .skipped "Sales trend analysis not applicable for summary data"
  else
    match List.lookup "date" cm, List.lookup "price" cm with
    | some dc, some pc =>
      match lookupCol df dc, lookupCol df pc with
      | some dcol, some pcol =>
        let valid := ((dcol.map toDT).zip pcol).filterMap
          (fun p => (p.1).map (fun t => (t, p.2)))
        match valid with
        | [] => .err "Analysis failed: idxmax of an empty sequence"
        | v :: vs =>
          if (valid.map Prod.snd).any isStrCell then
            .err "Analysis failed: object-dtype aggregation"
          else
            let daily := groupSum intLe
              ((v :: vs).map (fun p => (p.1.dateOrd, cellNum p.2)))
            let hourly := groupSum natLe
              ((v :: vs).map (fun p => (p.1.hour, cellNum p.2)))
            let weekly := groupSum strLe
              ((v :: vs).map (fun p => (p.1.dayName, cellNum p.2)))
            match daily, hourly, weekly with
            | d :: ds, h :: hs, w :: ws =>
              let peak := idxmaxBy (h :: hs) h
              let best := idxmaxBy (w :: ws) w
              .ok { daily_average := listMean ((d :: ds).map Prod.snd)
                    peak_hour := peak.1
                    peak_hour_sales := peak.2
                    best_day := best.1
                    best_day_average := best.2
                    total_revenue := ((v :: vs).filterMap (fun p => cellNum p.2)).sum
                    start_ord := ((d :: ds).map Prod.fst).foldl min d.1
                    end_ord := ((d :: ds).map Prod.fst).foldl max d.1 }
            | _, _, _ => .err "Analysis failed: idxmax of an empty sequence"
      | _, _ => .err "Analysis failed: KeyError"
    | _, _ => .skipped "Missing required columns for sales analysis"

/-! ## RestaurantDataAI.analyze_data_quality -/

/-- `df.duplicated().sum()`: every row equal to an earlier row counts. -/
def dupRowCount (rows : List (List Cell)) : Nat :=
  rows.length - rows.dedup.length

/-- `df.isnull().sum().sum()`: the null cells across the frame. -/
def missingCount (rows : List (List Cell)) : Nat :=
  (rows.map (fun r => r.countP (fun c => c == Cell.null))).sum

/-- The duplicate penalty: `min(20, duplicates / total_rows * 100)` when any
duplicate exists, nothing otherwise. -/
def dupPenalty (rows : List (List Cell)) : ℚ :=
  if dupRowCount rows > 0 then
    min 20 ((dupRowCount rows : ℚ) / (rows.length : ℚ) * 100)
  else 0

/-- The missing-value penalty:
`min(30, missing / (total_rows * total_cols) * 100)` when any value is
missing, nothing otherwise. -/
def missPenalty (ncols : Nat) (rows : List (List Cell)) : ℚ :=
  if missingCount rows > 0 then
    min 30 ((missingCount rows : ℚ) / ((rows.length * ncols : ℕ) : ℚ) * 100)
  else 0

/-- The `quality_score` field of `analyze_data_quality`: 100 minus both
penalties, rounded to one decimal, clamped at 0. -/
def quality_score (ncols : Nat) (rows : List (List Cell)) : ℚ :=
  max 0 (round1 (100 - dupPenalty rows - missPenalty ncols rows))

/-- The price-keyword predicate of the foundation mapper on a normalized
column name. -/
def priceMatch (cl : String) : Bool := priceKeywords.any (fun k => strContains cl k)

/-- The trend contract in the spec's own words, written independently of the
source for the C3 comparison: split at the midpoint, compare half means by
percent change (a zero first-half mean counts as zero change), classify
against ±5%, and answer insufficient data under two observations. -/
def trendSpec (s : List ℚ) : String :=
  if s.length < 2 then "insufficient_data"
  else
    let firstMean := listMean (s.take (s.length / 2))
    let secondMean := listMean (s.drop (s.length / 2))
    let change := if firstMean = 0 then 0 else (secondMean - firstMean) / firstMean * 100
    if change > 5 then "increasing"
    else if change < -5 then "decreasing"
    else "stable"

/-! ## Lemmas about the column detectors -/

theorem autoDetectField_sound {norm : String → String} {kws cols : List String}
    {v : List String} (h : autoDetectField norm kws cols = some v) :
    v ≠ [] ∧ ∀ c ∈ v, c ∈ cols := by
  unfold autoDetectField at h
  obtain ⟨cl, hfind, hv⟩ := Option.map_eq_some'.mp h
  refine ⟨?_, ?_⟩
  · have hcl : cl ∈ cols.map norm := List.mem_of_find?_eq_some hfind
    obtain ⟨c, hc, hnorm⟩ := List.mem_map.mp hcl
    have hmem : c ∈ cols.filter (fun c => norm c == cl) :=
      List.mem_filter.mpr ⟨hc, by simp [hnorm]⟩
    intro hnil
    rw [← hv] at hnil
    simp [hnil] at hmem
  · intro c hc
    rw [← hv] at hc
    exact List.mem_of_mem_filter hc

theorem autoDetectField_unique {norm : String → String} {kws cols : List String}
    {v : List String} (hnd : (cols.map norm).Nodup)
    (h : autoDetectField norm kws cols = some v) :
    ∃ c ∈ cols, v = [c] := by
  unfold autoDetectField at h
  obtain ⟨cl, hfind, hv⟩ := Option.map_eq_some'.mp h
  have hcl : cl ∈ cols.map norm := List.mem_of_find?_eq_some hfind
  have hlen : (cols.filter (fun c => norm c == cl)).length = 1 := by
    have h1 : (cols.filter (fun c => norm c == cl)).length =
        cols.countP (fun c => norm c == cl) :=
      (List.countP_eq_length_filter _ _).symm
    have h2 : cols.countP (fun c => norm c == cl) =
        (cols.map norm).countP (fun x => x == cl) := by
      rw [List.countP_map]; rfl
    have h3 : (cols.map norm).countP (fun x => x == cl) = (cols.map norm).count cl := rfl
    have h4 : (cols.map norm).count cl = 1 := List.count_eq_one_of_mem hnd hcl
    omega
  obtain ⟨c, hc⟩ := List.length_eq_one.mp (hv ▸ hlen)
  refine ⟨c, ?_, hc⟩
  have : c ∈ cols.filter (fun c => norm c == cl) := by
    rw [hv, hc]; exact List.mem_singleton_self c
  exact List.mem_of_mem_filter this

theorem find?_first_eq {α : Type} [DecidableEq α] {p : α → Bool} {l : List α} {a : α}
    (hmem : a ∈ l) (hiff : ∀ c ∈ l, p c = true ↔ c = a) :
    l.find? p = some a := by
  induction l with
  | nil => cases hmem
  | cons c t ih =>
    by_cases hpc : p c = true
    · have hca : c = a := (hiff c (List.mem_cons_self c t)).mp hpc
      rw [List.find?_cons_of_pos _ hpc, hca]
    · have hca : c ≠ a := fun h => hpc ((hiff c (List.mem_cons_self c t)).mpr h)
      have hmem' : a ∈ t := by
        rcases List.mem_cons.mp hmem with h | h
        · exact absurd h.symm hca
        · exact h
      rw [List.find?_cons_of_neg _ hpc]
      exact ih hmem' (fun c hc => hiff c (List.mem_cons_of_mem _ hc))

theorem mem_of_lookup_some {α β : Type} [BEq α] [LawfulBEq α] {l : List (α × β)}
    {a : α} {b : β} (h : List.lookup a l = some b) : (a, b) ∈ l := by
  induction l with
  | nil => simp [List.lookup] at h
  | cons p t ih =>
    rcases p with ⟨k, v⟩
    simp only [List.lookup] at h
    split at h
    · next heq =>
      have hak : a = k := by simpa using heq
      cases h
      subst hak
      exact List.mem_cons_self _ _
    · exact List.mem_cons_of_mem _ (ih h)

/-! ## Lemmas about basic metrics -/

theorem calculate_basic_metrics_ok (df : Frame) (m : Mapping) (pc : String)
    (col : List Cell) (hp : m.price = some pc) (hne : pc ≠ "")
    (hcol : lookupCol df pc = some col) :
    calculate_basic_metrics df m = Result.ok
      { total_revenue := ((clean_currency_column col).reduceOption).sum
        transaction_count := nrows df
        average_transaction := meanQ ((clean_currency_column col).reduceOption)
        median_transaction := medianQ ((clean_currency_column col).reduceOption)
        max_transaction := maxQ ((clean_currency_column col).reduceOption)
        min_transaction := minQ ((clean_currency_column col).reduceOption)
        std_transaction_sq := sampleVarQ ((clean_currency_column col).reduceOption) } := by
  unfold calculate_basic_metrics
  rw [hp]
  simp only [hcol]
  have : (pc == "") = false := by
    simp [hne]
  rw [this]
  simp

theorem clean_currency_column_length (col : List Cell) :
    (clean_currency_column col).length = col.length := by
  unfold clean_currency_column
  split_ifs <;> simp

/-! ## Lemmas about the quality score -/

theorem round1_mono {x y : ℚ} (h : x ≤ y) : round1 x ≤ round1 y := by
  unfold round1
  have hr : round (10 * x) ≤ round (10 * y) := by
    rw [round_eq, round_eq]
    exact Int.floor_le_floor (by linarith)
  have : ((round (10 * x) : ℤ) : ℚ) ≤ ((round (10 * y) : ℤ) : ℚ) := by
    exact_mod_cast hr
  linarith

theorem round1_hundred : round1 100 = 100 := by
  unfold round1
  rw [show (10 : ℚ) * 100 = ((1000 : ℤ) : ℚ) by norm_num, round_intCast]
  norm_num

theorem quality_score_clean (ncols : Nat) (rows : List (List Cell))
    (h1 : dupRowCount rows = 0) (h2 : missingCount rows = 0) :
    quality_score ncols rows = 100 := by
  unfold quality_score dupPenalty missPenalty
  rw [h1, h2]
  simp [round1_hundred]

theorem dupPenalty_bounds (rows : List (List Cell)) :
    0 ≤ dupPenalty rows ∧ dupPenalty rows ≤ 20 := by
  unfold dupPenalty
  split_ifs with h
  · constructor
    · apply le_min (by norm_num)
      positivity
    · exact min_le_left _ _
  · norm_num

theorem missPenalty_bounds (ncols : Nat) (rows : List (List Cell)) :
    0 ≤ missPenalty ncols rows ∧ missPenalty ncols rows ≤ 30 := by
  unfold missPenalty
  split_ifs with h
  · constructor
    · apply le_min (by norm_num)
      positivity
    · exact min_le_left _ _
  · norm_num

/-! ## Lemmas about the business opportunities -/

theorem customerOpportunities_eq (sl : List (String × ColStats)) :
    customerOpportunities sl =
      (sl.filter (fun p => isCustName p.1 && decide (p.2.average < 200))).map
        (fun p => { type := "customer_acquisition", priority := "HIGH"
                    impact := (250 - p.2.average) * 7 * 4
                    recommendation := "Launch customer acquisition campaigns" }) := by
  induction sl with
  | nil => rfl
  | cons p t ih =>
    unfold customerOpportunities at ih ⊢
    by_cases hc : isCustName p.1
    · by_cases ha : p.2.average < 200 <;> simp [hc, ha, ih]
    · simp [hc, ih]

theorem revenueOpportunities_not_cust (sl : List (String × ColStats)) :
    ∀ o ∈ revenueOpportunities sl, (o.type == "customer_acquisition") = false := by
  intro o ho
  unfold revenueOpportunities at ho
  obtain ⟨p, _, hpo⟩ := List.mem_filterMap.mp ho
  split_ifs at hpo with h1 h2 h3
  · cases hpo; rfl
  · cases hpo; rfl

theorem cust_filter_unique (nf : NumFrame) (nm : String) (st : ColStats)
    (herr : (summaryStats nf).any (fun p => p.1 == "error") = false)
    (hone : (summaryStats nf).filter
        (fun p => isCustName p.1 && decide (p.2.average < 200)) = [(nm, st)]) :
    (analyze_business_opportunities nf).filter
        (fun o => o.type == "customer_acquisition") =
      [{ type := "customer_acquisition", priority := "HIGH",
         impact := (250 - st.average) * 7 * 4,
         recommendation := "Launch customer acquisition campaigns" }] := by
  have hnf : ¬ nf.isEmpty = true := by
    intro h
    rw [List.isEmpty_iff] at h
    subst h
    simp [summaryStats] at hone
  have hok : analyze_business_opportunities nf =
      revenueOpportunities (summaryStats nf) ++
        customerOpportunities (summaryStats nf) := by
    unfold analyze_business_opportunities analyze_summary_data
    simp [hnf, herr]
  rw [hok, List.filter_append]
  have hrev : (revenueOpportunities (summaryStats nf)).filter
      (fun o => o.type == "customer_acquisition") = [] := by
    rw [List.filter_eq_nil_iff]
    intro o ho
    simp [revenueOpportunities_not_cust _ o ho]
  have hcust : customerOpportunities (summaryStats nf) =
      [{ type := "customer_acquisition", priority := "HIGH",
         impact := (250 - st.average) * 7 * 4,
         recommendation := "Launch customer acquisition campaigns" }] := by
    rw [customerOpportunities_eq, hone]
    rfl
  rw [hrev, hcust]
  simp

/-! ## Lemmas about the revenue baselines -/

theorem baselineTotals_fst (sl : List (String × ColStats)) (acc : ℚ × ℚ) :
    (sl.foldl (fun acc p =>
      if isRevName p.1 then (p.2.total, acc.2)
      else if isCustName p.1 then (acc.1, p.2.total) else acc) acc).1 =
    ((sl.filter (fun p => isRevName p.1)).map (fun p => p.2.total)).getLastD acc.1 := by
  induction sl generalizing acc with
  | nil => rfl
  | cons p t ih =>
    by_cases hr : isRevName p.1
    · simp only [List.foldl_cons, List.filter_cons, hr, if_pos, List.map_cons,
        List.getLastD_cons]
      rw [ih]
    · by_cases hc : isCustName p.1
      · simp only [List.foldl_cons, List.filter_cons, hr, hc]
        simp only [Bool.false_eq_true, if_false, if_true]
        rw [ih]
      · simp only [List.foldl_cons, List.filter_cons, hr, hc]
        simp only [Bool.false_eq_true, if_false]
        rw [ih]

theorem revenueImpactBaseline_eq (sl : List (String × ColStats)) :
    revenueImpactBaseline sl =
      ((sl.filter (fun p => isRevName p.1)).map (fun p => p.2.total)).getLastD 0 := by
  unfold revenueImpactBaseline baselineTotals
  exact baselineTotals_fst sl (0, 0)

/-! ## Claim C1 -/

/-- C1 (amended): both column detectors are total — the scan either leaves a
field unmapped or stores a nonempty selection of actual column names — and
when the normalized (lowercased/trimmed) column names are pairwise distinct,
every stored value is a single actual column name.  When two distinct columns
normalize to the same string, the stored value is the pandas Index of all
columns sharing the first matched normalized name, not a single column name
(see the counterexample). -/
theorem C1_mapping_values_from_columns :
    (∀ cols field v, (field, some v) ∈ auto_detect_columns cols →
      v ≠ [] ∧ (∀ c ∈ v, c ∈ cols) ∧
        ((cols.map normFoundation).Nodup → ∃ c ∈ cols, v = [c])) ∧
    (∀ cols field v, (field, v) ∈ ai_auto_detect_columns cols →
      v ≠ [] ∧ (∀ c ∈ v, c ∈ cols) ∧
        ((cols.map lowerStr).Nodup → ∃ c ∈ cols, v = [c])) := by
  constructor
  · intro cols field v hmem
    unfold auto_detect_columns at hmem
    obtain ⟨p, _, heq⟩ := List.mem_map.mp hmem
    have h2 : autoDetectField normFoundation p.2 cols = some v := by
      have := congrArg Prod.snd heq
      simpa using this
    exact ⟨(autoDetectField_sound h2).1, (autoDetectField_sound h2).2,
      fun hnd => autoDetectField_unique hnd h2⟩
  · intro cols field v hmem
    unfold ai_auto_detect_columns at hmem
    obtain ⟨p, _, heq⟩ := List.mem_filterMap.mp hmem
    obtain ⟨v', hv', heq2⟩ := Option.map_eq_some'.mp heq
    have hvv : v' = v := by
      have := congrArg Prod.snd heq2
      simpa using this
    rw [hvv] at hv'
    exact ⟨(autoDetectField_sound hv').1, (autoDetectField_sound hv').2,
      fun hnd => autoDetectField_unique hnd hv'⟩

/-- C1 counterexample: the two distinct columns "Price" and "PRICE" both
normalize to "price", so the detected price value is the two-element Index
of both columns — not one of the dataset's column names, refuting the claim
for colliding names. -/
theorem C1_counterexample_collision :
    (auto_detect_columns ["Price", "PRICE"]).lookup "price" =
      some (some ["Price", "PRICE"]) ∧
    ¬ ∃ c, c ∈ (["Price", "PRICE"] : List String) ∧
      (auto_detect_columns ["Price", "PRICE"]).lookup "price" = some (some [c]) := by
  decide

/-! ## Claim C2 -/

/-- C2 (amended): a dataset with a column literally named "price" always gets
the canonical field `price` mapped, to a nonempty selection of actual column
names — but to the literal "price" column itself only when no other column
matches any price keyword (and "price" occurs once); the scan picks the
first keyword match in left-to-right order, not the literal name (see the
counterexample). -/
theorem C2_literal_price_detection (cols : List String) (h : "price" ∈ cols) :
    ("price", autoDetectField normFoundation priceKeywords cols) ∈
      auto_detect_columns cols ∧
    (∃ v, autoDetectField normFoundation priceKeywords cols = some v ∧
      v ≠ [] ∧ ∀ c ∈ v, c ∈ cols) ∧
    ((∀ c ∈ cols, c ≠ "price" → priceMatch (normFoundation c) = false) →
      cols.count "price" = 1 →
      autoDetectField normFoundation priceKeywords cols = some ["price"]) := by
  refine ⟨?_, ?_, ?_⟩
  · unfold auto_detect_columns
    exact List.mem_map.mpr ⟨("price", priceKeywords), by decide, rfl⟩
  · have hpred : priceMatch (normFoundation "price") = true := by decide
    have hmemmap : normFoundation "price" ∈ cols.map normFoundation :=
      List.mem_map_of_mem _ h
    have hsome : ((cols.map normFoundation).find?
        (fun cl => priceKeywords.any (fun k => strContains cl k))).isSome :=
      List.find?_isSome.mpr ⟨normFoundation "price", hmemmap, hpred⟩
    obtain ⟨cl, hcl⟩ := Option.isSome_iff_exists.mp hsome
    refine ⟨cols.filter (fun c => normFoundation c == cl), ?_, ?_⟩
    · unfold autoDetectField
      rw [hcl]
      rfl
    · have hdet : autoDetectField normFoundation priceKeywords cols =
          some (cols.filter (fun c => normFoundation c == cl)) := by
        unfold autoDetectField
        rw [hcl]
        rfl
      exact autoDetectField_sound hdet
  · intro hno hone
    have hiff : ∀ c ∈ cols, priceMatch (normFoundation c) = true ↔ c = "price" := by
      intro c hc
      constructor
      · intro hp
        by_contra hne
        rw [hno c hc hne] at hp
        exact Bool.false_ne_true hp
      · intro he
        subst he
        decide
    have hfind : (cols.map normFoundation).find?
        (fun cl => priceKeywords.any (fun k => strContains cl k)) = some "price" := by
      have hfm : List.find? (fun cl => priceKeywords.any (fun k => strContains cl k))
          (cols.map normFoundation) =
          Option.map normFoundation (cols.find?
            ((fun cl => priceKeywords.any (fun k => strContains cl k)) ∘ normFoundation)) :=
        List.find?_map normFoundation cols
      rw [hfm]
      have hcomp : ((fun cl => priceKeywords.any (fun k => strContains cl k)) ∘
          normFoundation) = (fun c => priceMatch (normFoundation c)) := rfl
      rw [hcomp, find?_first_eq h hiff]
      rfl
    have hfilter : cols.filter (fun c => normFoundation c == "price") = ["price"] := by
      have hcongr : cols.filter (fun c => normFoundation c == "price") =
          cols.filter (fun c => c == "price") := by
        apply List.filter_congr
        intro c hc
        by_cases hce : c = "price"
        · subst hce; decide
        · have h1 : priceMatch (normFoundation c) = false := hno c hc hce
          have h2 : normFoundation c ≠ "price" := by
            intro hn
            rw [hn] at h1
            exact absurd h1 (by decide)
          simp [h2, hce]
      rw [hcongr, List.filter_beq cols "price", hone, List.replicate_one]
    unfold autoDetectField
    rw [hfind]
    simp [hfilter]

/-- C2 witness: on the one-column dataset ["price"] the theorem's hypotheses
hold and the price field is detected. -/
theorem C2_literal_price_detection_witness :
    ("price", autoDetectField normFoundation priceKeywords ["price"]) ∈
      auto_detect_columns ["price"] ∧
    (∃ v, autoDetectField normFoundation priceKeywords ["price"] = some v ∧
      v ≠ [] ∧ ∀ c ∈ v, c ∈ (["price"] : List String)) ∧
    ((∀ c ∈ (["price"] : List String), c ≠ "price" →
        priceMatch (normFoundation c) = false) →
      (["price"] : List String).count "price" = 1 →
      autoDetectField normFoundation priceKeywords ["price"] = some ["price"]) :=
  C2_literal_price_detection ["price"] (by decide)

/-- C2 counterexample: in the dataset ["total", "price"] the literal "price"
column is present, yet the price field maps to "total" (the first column
containing a price keyword), refuting the claim that a literal "price"
column always becomes the mapped price column. -/
theorem C2_counterexample_first_match :
    "price" ∈ (["total", "price"] : List String) ∧
    autoDetectField normFoundation priceKeywords ["total", "price"] = some ["total"] ∧
    ¬ autoDetectField normFoundation priceKeywords ["total", "price"] = some ["price"] := by
  decide

/-! ## Claim C3 -/

/-- C3: the source's trend classifier agrees with the spec's contract on
every numeric series (midpoint split, half-mean percent change with the zero
guard, ±5% thresholds, insufficient data under two points), and the four
concrete series of the spec classify as stated. -/
theorem C3_trend_classifier :
    (∀ s : List ℚ, calculate_trend s = trendSpec s) ∧
    calculate_trend [100, 100, 100, 100] = "stable" ∧
    calculate_trend [50, 50, 150, 150] = "increasing" ∧
    calculate_trend [150, 150, 50, 50] = "decreasing" ∧
    calculate_trend [100] = "insufficient_data" ∧
    calculate_trend [] = "insufficient_data" := by
  refine ⟨?_, ?_, ?_, ?_, ?_, ?_⟩
  · intro s
    unfold calculate_trend trendSpec
    by_cases hlen : s.length < 2
    · simp [hlen]
    · by_cases h : listMean (s.take (s.length / 2)) = 0 <;> simp [hlen, h]
  · unfold calculate_trend listMean; norm_num
  · unfold calculate_trend listMean; norm_num
  · unfold calculate_trend listMean; norm_num
  · unfold calculate_trend; norm_num
  · unfold calculate_trend; norm_num

/-! ## Claim C4 -/

/-- C4: the data-type classifier returns "summary" exactly when strictly more
lowercased column names contain a summary keyword than a transaction
keyword, "transaction" exactly in the opposite strict case, and "mixed"
exactly on equal counts; and it is deterministic — any reordering of the
same column names yields the same label. -/
theorem C4_data_type_classifier :
    (∀ cols : List String,
      (determine_data_type cols = "summary" ↔
        indicatorScore transactionIndicators cols < indicatorScore summaryIndicators cols) ∧
      (determine_data_type cols = "transaction" ↔
        indicatorScore summaryIndicators cols < indicatorScore transactionIndicators cols) ∧
      (determine_data_type cols = "mixed" ↔
        indicatorScore summaryIndicators cols = indicatorScore transactionIndicators cols)) ∧
    (∀ cols cols' : List String, cols.Perm cols' →
      determine_data_type cols = determine_data_type cols') := by
  constructor
  · intro cols
    simp only [determine_data_type]
    refine ⟨?_, ?_, ?_⟩ <;> split_ifs with h1 h2 <;> simp_all <;> omega
  · intro cols cols' hp
    unfold determine_data_type indicatorScore
    rw [(List.Perm.filter _ (hp.map lowerStr)).length_eq,
        (List.Perm.filter _ (hp.map lowerStr)).length_eq]

/-! ## Claim C5 -/

/-- C5: with the price field mapped to a column present in the frame, basic
metrics cleans the price values (stripping dollar signs and commas), parses
them, treats unparseable values as missing — excluded from every aggregate,
never zero — and aggregates total, mean, median, max, min and (squared)
standard deviation over the parsed values only; on the price values
["$10.00", "$20.00", "bad", "$30.00"] the parsed values are [10, 20, 30],
the total 60 and the mean 20. -/
theorem C5_basic_metrics_missing_excluded :
    (∀ (df : Frame) (m : Mapping) (pc : String) (col : List Cell),
      m.price = some pc → pc ≠ "" → lookupCol df pc = some col →
      calculate_basic_metrics df m = Result.ok
        { total_revenue := ((clean_currency_column col).reduceOption).sum
          transaction_count := nrows df
          average_transaction := meanQ ((clean_currency_column col).reduceOption)
          median_transaction := medianQ ((clean_currency_column col).reduceOption)
          max_transaction := maxQ ((clean_currency_column col).reduceOption)
          min_transaction := minQ ((clean_currency_column col).reduceOption)
          std_transaction_sq := sampleVarQ ((clean_currency_column col).reduceOption) }) ∧
    cleanCurrencyStr "bad" = none ∧
    (clean_currency_column
        [Cell.str "$10.00", Cell.str "$20.00", Cell.str "bad", Cell.str "$30.00"]).reduceOption
      = [10, 20, 30] ∧
    (∃ r, calculate_basic_metrics
        [("price", [Cell.str "$10.00", Cell.str "$20.00", Cell.str "bad", Cell.str "$30.00"])]
        { price := some "price" } = Result.ok r ∧
      r.total_revenue = 60 ∧ r.average_transaction = some 20) := by
  have hlist : (clean_currency_column
      [Cell.str "$10.00", Cell.str "$20.00", Cell.str "bad", Cell.str "$30.00"]).reduceOption
      = [((10:ℕ):ℚ) + ((0:ℕ):ℚ)/(10:ℚ)^2, ((20:ℕ):ℚ) + ((0:ℕ):ℚ)/(10:ℚ)^2,
         ((30:ℕ):ℚ) + ((0:ℕ):ℚ)/(10:ℚ)^2] := rfl
  have hlist' : (clean_currency_column
      [Cell.str "$10.00", Cell.str "$20.00", Cell.str "bad", Cell.str "$30.00"]).reduceOption
      = [10, 20, 30] := by
    rw [hlist]; norm_num
  refine ⟨?_, rfl, hlist', ?_⟩
  · intro df m pc col hp hne hcol
    exact calculate_basic_metrics_ok df m pc col hp hne hcol
  · refine ⟨_, calculate_basic_metrics_ok _ _ "price" _ rfl (by decide) rfl, ?_, ?_⟩
    · simp [hlist']
      norm_num
    · simp [hlist', meanQ]
      norm_num

/-! ## Claim C10 -/

/-- C10: with the price field mapped, `transaction_count` is `len(df)` — the
total number of rows, unparseable price values included — so it equals the
price column's length on any rectangular frame and can strictly exceed the
number of parsed values feeding the other aggregates, as on the example
column with four rows but three parsed values. -/
theorem C10_transaction_count_counts_all_rows :
    (∀ (df : Frame) (m : Mapping) (pc : String) (col : List Cell),
      m.price = some pc → pc ≠ "" → lookupCol df pc = some col →
      ∃ r, calculate_basic_metrics df m = Result.ok r ∧
        r.transaction_count = nrows df ∧
        ((∀ p ∈ df, p.2.length = nrows df) → r.transaction_count = col.length) ∧
        ((clean_currency_column col).reduceOption).length ≤ col.length) ∧
    (∃ r, calculate_basic_metrics
        [("price", [Cell.str "$10.00", Cell.str "$20.00", Cell.str "bad", Cell.str "$30.00"])]
        { price := some "price" } = Result.ok r ∧
      r.transaction_count = 4 ∧
      ((clean_currency_column [Cell.str "$10.00", Cell.str "$20.00", Cell.str "bad",
          Cell.str "$30.00"]).reduceOption).length = 3) := by
  constructor
  · intro df m pc col hp hne hcol
    refine ⟨_, calculate_basic_metrics_ok df m pc col hp hne hcol, rfl, ?_, ?_⟩
    · intro hrect
      have hmem : (pc, col) ∈ df := mem_of_lookup_some hcol
      exact (hrect _ hmem).symm
    · calc ((clean_currency_column col).reduceOption).length
          ≤ (clean_currency_column col).length := List.reduceOption_length_le _
        _ = col.length := clean_currency_column_length col
  · exact ⟨_, calculate_basic_metrics_ok _ _ "price" _ rfl (by decide) rfl, rfl, rfl⟩

/-! ## Claim C7 -/

/-- C7: the data-quality score is 100 minus a duplicate penalty capped at 20
and a missing-value penalty capped at 30 (both nonnegative, linear in their
ratios), clamped at 0 — so it always lies in [0, 100] — and is exactly 100
on a dataset with no duplicate rows and no missing values. -/
theorem C7_quality_score_bounds :
    (∀ (ncols : Nat) (rows : List (List Cell)),
      0 ≤ dupPenalty rows ∧ dupPenalty rows ≤ 20 ∧
      0 ≤ missPenalty ncols rows ∧ missPenalty ncols rows ≤ 30 ∧
      quality_score ncols rows =
        max 0 (round1 (100 - dupPenalty rows - missPenalty ncols rows)) ∧
      0 ≤ quality_score ncols rows ∧ quality_score ncols rows ≤ 100 ∧
      (dupRowCount rows = 0 → missingCount rows = 0 → quality_score ncols rows = 100)) ∧
    quality_score 2 [[Cell.str "a", Cell.str "b"]] = 100 := by
  constructor
  · intro ncols rows
    obtain ⟨hd0, hd20⟩ := dupPenalty_bounds rows
    obtain ⟨hm0, hm30⟩ := missPenalty_bounds ncols rows
    refine ⟨hd0, hd20, hm0, hm30, rfl, le_max_left _ _, ?_,
      quality_score_clean ncols rows⟩
    unfold quality_score
    apply max_le (by norm_num)
    calc round1 (100 - dupPenalty rows - missPenalty ncols rows)
        ≤ round1 100 := round1_mono (by linarith)
      _ = 100 := round1_hundred
  · exact quality_score_clean 2 _ rfl rfl

/-! ## Claim C6 -/

/-- C6 (amended): on a summary-labeled dataset with no numeric column
literally named "error" (the consumers test summary failure in-band by the
presence of the key "error", which such a column shadows) whose unique
guest/customer numeric column averages under 200, the opportunity list holds
exactly one customer-acquisition opportunity — HIGH priority, impact
(250 − average) × 7 × 4 — and in general a customer opportunity is emitted
exactly for the guest/customer columns averaging strictly under 200; the
spec's scenario (guest_count averaging 120/day) yields the single
opportunity of impact 3640. -/
theorem C6_customer_acquisition_opportunity :
    (∀ (nf : NumFrame) (nm : String) (st : ColStats),
      determine_data_type (nf.map Prod.fst) = "summary" →
      (summaryStats nf).any (fun p => p.1 == "error") = false →
      (summaryStats nf).filter
          (fun p => isCustName p.1 && decide (p.2.average < 200)) = [(nm, st)] →
      (analyze_business_opportunities nf).filter
          (fun o => o.type == "customer_acquisition") =
        [{ type := "customer_acquisition", priority := "HIGH",
           impact := (250 - st.average) * 7 * 4,
           recommendation := "Launch customer acquisition campaigns" }]) ∧
    (∀ sl : List (String × ColStats), customerOpportunities sl =
      (sl.filter (fun p => isCustName p.1 && decide (p.2.average < 200))).map
        (fun p => { type := "customer_acquisition", priority := "HIGH",
                    impact := (250 - p.2.average) * 7 * 4,
                    recommendation := "Launch customer acquisition campaigns" })) ∧
    determine_data_type ["guest_count"] = "summary" ∧
    ((analyze_business_opportunities [("guest_count", [some 120])]).filter
        (fun o => o.type == "customer_acquisition") =
      [{ type := "customer_acquisition", priority := "HIGH", impact := 3640,
         recommendation := "Launch customer acquisition campaigns" }]) := by
  have havg : (mkColStats [120]).average = 120 := by
    unfold mkColStats listMean
    norm_num
  refine ⟨fun nf nm st _ herr hone => cust_filter_unique nf nm st herr hone,
    customerOpportunities_eq, by decide, ?_⟩
  have hstats : summaryStats [("guest_count", [some (120:ℚ)])] =
      [("guest_count", mkColStats [120])] := rfl
  have hcustname : isCustName "guest_count" = true := by decide
  have hone : (summaryStats [("guest_count", [some (120:ℚ)])]).filter
      (fun p => isCustName p.1 && decide (p.2.average < 200)) =
      [("guest_count", mkColStats [120])] := by
    rw [hstats]
    have hcond : (isCustName "guest_count" &&
        decide ((mkColStats [120]).average < 200)) = true := by
      rw [hcustname, havg]
      simp
      norm_num
    simp [List.filter, hcond]
  have := cust_filter_unique [("guest_count", [some (120:ℚ)])] "guest_count"
    (mkColStats [120]) rfl hone
  rw [this, havg]
  norm_num

/-- C6 counterexample: the dataset with numeric columns
[error = 1, guest_count = 120] is labeled summary and has exactly one
guest/customer column averaging under 200, yet the program emits no
opportunity at all — the column literally named "error" makes the in-band
test `if 'error' not in summary_data:` fail, and both loops are skipped —
refuting the claim that exactly one customer-acquisition opportunity is
emitted. -/
theorem C6_counterexample_error_shadow :
    determine_data_type ["error", "guest_count"] = "summary" ∧
    ((summaryStats [("error", [some 1]), ("guest_count", [some 120])]).filter
        (fun p => isCustName p.1 && decide (p.2.average < 200))).length = 1 ∧
    analyze_business_opportunities [("error", [some 1]), ("guest_count", [some 120])] = [] ∧
    ((analyze_business_opportunities
        [("error", [some 1]), ("guest_count", [some 120])]).filter
      (fun o => o.type == "customer_acquisition")).length = 0 := by
  have havg : (mkColStats [(120:ℚ)]).average = 120 := by
    unfold mkColStats listMean
    norm_num
  have hstats : summaryStats [("error", [some (1:ℚ)]), ("guest_count", [some (120:ℚ)])] =
      [("error", mkColStats [1]), ("guest_count", mkColStats [120])] := rfl
  refine ⟨by decide, ?_, rfl, rfl⟩
  rw [hstats]
  have hc1 : (isCustName "error" && decide ((mkColStats [(1:ℚ)]).average < 200)) = false := by
    have : isCustName "error" = false := by decide
    rw [this]
    rfl
  have hc2 : (isCustName "guest_count" &&
      decide ((mkColStats [(120:ℚ)]).average < 200)) = true := by
    have h1 : isCustName "guest_count" = true := by decide
    rw [h1, havg]
    simp
    norm_num
  simp [List.filter, hc1, hc2]

/-! ## Claim C9 -/

/-- C9: the revenue-impact projection bases its four fixed-percentage
scenarios on the total of the LAST sales/revenue column (each later match
overwrites the earlier one — the fold's first component is the last matching
total), whereas the strategic-recommendation generator sums the totals of
ALL sales/revenue columns; on the two-column frame
[daily_sales totalling 10, weekly_sales totalling 20] the former baseline is
20 and the latter 30.  The projection is emitted only when the in-band
`'error' not in summary_data` test passes (no numeric column literally named
"error"); a column of that name yields the empty dict instead. -/
theorem C9_revenue_baselines_diverge :
    (∀ nf : NumFrame,
      revenueImpactBaseline (summaryStats nf) =
        (((summaryStats nf).filter (fun p => isRevName p.1)).map
          (fun p => p.2.total)).getLastD 0 ∧
      strategic_total_revenue (summaryStats nf) =
        (((summaryStats nf).filter (fun p => isRevName p.1)).map
          (fun p => p.2.total)).sum ∧
      ((summaryStats nf).any (fun p => p.1 == "error") = true →
        calculate_revenue_impact nf = none) ∧
      (¬ nf.isEmpty = true →
        (summaryStats nf).any (fun p => p.1 == "error") = false →
        0 < revenueImpactBaseline (summaryStats nf) →
        calculate_revenue_impact nf = some
          { customer_acquisition_25 := ⟨revenueImpactBaseline (summaryStats nf) * (25/100),
              revenueImpactBaseline (summaryStats nf) * (25/100) * 12⟩
            average_ticket_15 := ⟨revenueImpactBaseline (summaryStats nf) * (15/100),
              revenueImpactBaseline (summaryStats nf) * (15/100) * 12⟩
            operational_efficiency_10 := ⟨revenueImpactBaseline (summaryStats nf) * (10/100),
              revenueImpactBaseline (summaryStats nf) * (10/100) * 12⟩
            combined_impact := ⟨revenueImpactBaseline (summaryStats nf) * (50/100),
              revenueImpactBaseline (summaryStats nf) * (50/100) * 12⟩ })) ∧
    (2 ≤ ((summaryStats [("daily_sales", [some 10]), ("weekly_sales", [some 20])]).filter
        (fun p => isRevName p.1)).length ∧
     revenueImpactBaseline
        (summaryStats [("daily_sales", [some 10]), ("weekly_sales", [some 20])]) = 20 ∧
     strategic_total_revenue
        (summaryStats [("daily_sales", [some 10]), ("weekly_sales", [some 20])]) = 30 ∧
     (20:ℚ) ≠ 30) := by
  have h1 : isRevName "daily_sales" = true := by decide
  have h2 : isRevName "weekly_sales" = true := by decide
  have hstats : summaryStats [("daily_sales", [some (10:ℚ)]), ("weekly_sales", [some (20:ℚ)])] =
      [("daily_sales", mkColStats [10]), ("weekly_sales", mkColStats [20])] := rfl
  have ht10 : (mkColStats [(10:ℚ)]).total = 10 := by
    unfold mkColStats; norm_num
  have ht20 : (mkColStats [(20:ℚ)]).total = 20 := by
    unfold mkColStats; norm_num
  refine ⟨?_, ?_, ?_, ?_, ?_⟩
  · intro nf
    refine ⟨revenueImpactBaseline_eq _, rfl, ?_, ?_⟩
    · intro herr
      have hne : ¬ nf.isEmpty = true := by
        intro h
        rw [List.isEmpty_iff] at h
        subst h
        simp [summaryStats] at herr
      unfold calculate_revenue_impact analyze_summary_data
      rw [if_neg hne]
      dsimp only
      rw [if_pos herr]
    · intro hne herr hpos
      unfold calculate_revenue_impact analyze_summary_data
      rw [if_neg hne]
      dsimp only
      rw [if_neg (by simp [herr]), if_pos hpos]
  · rw [hstats]
    simp [List.filter, h1, h2]
  · rw [hstats, revenueImpactBaseline_eq]
    simp [List.filter, h1, h2, List.getLastD, ht20]
  · rw [hstats]
    unfold strategic_total_revenue
    simp [List.filter, h1, h2, ht10, ht20]
    norm_num
  · norm_num

/-! ## Claim C8 -/

/-- C8 (amended): with its required fields unmapped, no analysis operation
raises or fabricates an answer — each returns a result distinguishable from
a successful computation — but the marker differs by module: the foundation's
four operations return the error-keyed dict (the same shape as a computation
error), while the AI analyzer's trend analysis returns the skipped-keyed
"missing columns" dict. -/
theorem C8_missing_mapping_degrades :
    (∀ (df : Frame) (m : Mapping) (toDT : Cell → Option Timestamp),
      (m.price = none → calculate_basic_metrics df m = Result.err "Price column required") ∧
      (m.date = none ∨ m.price = none →
        analyze_temporal_patterns toDT df m = Result.err "Date and price columns required") ∧
      (m.item_name = none →
        analyze_item_performance df m = Result.err "Item name column required") ∧
      (m.order_id = none →
        analyze_order_composition df m = Result.err "Order ID column required")) ∧
    (∀ (dataType : String) (cm : List (String × String)) (toDT : Cell → Option Timestamp)
        (df : Frame),
      dataType ≠ "summary" →
      (List.lookup "date" cm = none ∨ List.lookup "price" cm = none) →
      analyze_sales_trends dataType cm toDT df =
        Result.skipped "Missing required columns for sales analysis") := by
  constructor
  · intro df m toDT
    refine ⟨?_, ?_, ?_, ?_⟩
    · intro hp
      unfold calculate_basic_metrics
      rw [hp]
    · intro h
      unfold analyze_temporal_patterns
      rcases h with h | h <;> simp [falsy, h]
    · intro h
      unfold analyze_item_performance
      simp [falsy, h]
    · intro h
      unfold analyze_order_composition
      simp [falsy, h]
  · intro dataType cm toDT df hdt h
    unfold analyze_sales_trends
    rw [if_neg (by simpa using hdt)]
    rcases h with h | h
    · rw [h]
    · cases hd : List.lookup "date" cm
      · rfl
      · rw [h]

/-- C8 counterexample: basic metrics with no price mapping returns the
error-keyed dict "Price column required" — an error-shaped result, not the
"skipped: missing columns" result the claim names. -/
theorem C8_counterexample_error_not_skipped :
    calculate_basic_metrics [] {} = Result.err "Price column required" ∧
    (calculate_basic_metrics [] ({} : Mapping)).isSkipped = false := ⟨rfl, rfl⟩

end DataTool
